/-
Verification of the SmartCity Traffic Flow Optimizer pipeline.

Shallow embedding of the Python scripts:
  - simulate_traffic.py : per-(segment, hour) speed synthesis with a
    time-of-day parameter table, a 5 km/h floor and rounding to one decimal;
  - train_predict_model.py : LabelEncoder fit over segment identifiers
    (sorted distinct values; transform = index, inverse_transform = lookup);
  - app.py : the predict button handler (membership check against the
    encoder's classes, traffic-level message branches, get_color, coordinate
    transposition for the interactive map);
  - visualize_traffic.py : get_color with the missing-speed branch, the
    subset selection capped at MAX_SEGMENTS_TO_PLOT, and the plotting loop
    that skips records with absent or empty geometry;
  - extract_segments.py : segment records built from graph edges, with
    segment_id taken from the edge index.

Speeds are modelled as rationals; the random normal draw of the simulation
is an explicit parameter (one value per (segment, hour) iteration); a
missing value (NaN) is modelled as Option.none.
-/
import Mathlib

namespace Traffic

/-! ### Rounding (Python round(x, 1): round half to even, one decimal) -/

/-- Round a rational to the nearest integer, ties to even
(Python's built-in round). -/
def round_half_even (q : ℚ) : ℤ :=
  if q - ⌊q⌋ < 1/2 then ⌊q⌋
  else if 1/2 < q - ⌊q⌋ then ⌊q⌋ + 1
  else if ⌊q⌋ % 2 = 0 then ⌊q⌋ else ⌊q⌋ + 1

/-- Python round(x, 1): one decimal digit, ties to even. -/
def pyround1 (q : ℚ) : ℚ := (round_half_even (q * 10) : ℚ) / 10

/-! ### simulate_traffic.py -/

/-- The (mean, stddev) parameter table of simulate_speed: the if-chain on
the hour parsed out of the "HH:00" string. -/
def speedParams (h : ℕ) : ℚ × ℚ :=
  if (7 ≤ h ∧ h ≤ 9) ∨ (16 ≤ h ∧ h ≤ 18) then (18, 5)
  else if 10 ≤ h ∧ h ≤ 15 then (30, 7)
  else if 19 ≤ h ∧ h ≤ 22 then (40, 5)
  else (50, 5)

/-- One row of the input segment table (warsaw_road_segments.csv as read by
simulate_traffic.py). -/
structure SimRow where
  segment_id : String
  name : Option String
deriving DecidableEq

/-- One record appended to traffic_data. -/
structure TrafficSample where
  segment_id : String
  road_name : String
  hour : ℕ
  speed_kph : ℚ
deriving DecidableEq

/-- The speed written for one loop iteration:
round(max(5, simulate_speed(hour)), 1), where "draw" is the value returned
by the normal sampler at that iteration. -/
def recordSpeed (draw : ℚ) : ℚ := pyround1 (max 5 draw)

/-- The generation loop of simulate_traffic.py: for every segment row, for
every hour 0..23, append one record.  "noise" gives the fresh normal draw of
each (segment, hour) iteration. -/
def trafficData (segments : List SimRow) (noise : String → ℕ → ℚ) :
    List TrafficSample :=
  segments.flatMap (fun row =>
    (List.range 24).map (fun h =>
      { segment_id := row.segment_id
        road_name := row.name.getD "Unnamed Road"
        hour := h
        speed_kph := recordSpeed (noise row.segment_id h) }))

/-- The (segment_id, hour) keys of a simulation run's output. -/
def sampleKeys (segments : List SimRow) (noise : String → ℕ → ℚ) :
    List (String × ℕ) :=
  (trafficData segments noise).map (fun t => (t.segment_id, t.hour))

/-- Multiplicity of one (segment_id, hour) key in a key list. -/
def countKey (keys : List (String × ℕ)) (sid : String) (h : ℕ) : ℕ :=
  keys.countP (fun k => decide (k = (sid, h)))

/-! ### Traffic-level classification (app.py and visualize_traffic.py) -/

/-- The message shown by the prediction branches of app.py. -/
def trafficMessage (speed : ℚ) : String :=
  if speed < 15 then "Heavy traffic expected."
  else if speed < 30 then "Moderate traffic expected."
  else "Light traffic / Free flow expected."

/-- get_color as defined inside app.py's map column. -/
def app_get_color (speed : ℚ) : String :=
  if speed < 15 then "red"
  else if speed < 30 then "orange"
  else "green"

/-- get_color of visualize_traffic.py; none models a NaN speed. -/
def viz_get_color (speed_kph : Option ℚ) : String :=
  match speed_kph with
  | none => "grey"
  | some s =>
    if s < 15 then "red"
    else if s < 30 then "orange"
    else "green"

/-! ### train_predict_model.py : the label encoder -/

/-- LabelEncoder.fit over the segment_id column: classes_ is the sorted list
of distinct values (np.unique). -/
def fitClasses (ids : List String) : List String :=
  List.insertionSort (fun a b => a ≤ b) ids.dedup

/-- LabelEncoder.transform of one known value: its index among classes_. -/
def leTransform (classes : List String) (s : String) : ℕ :=
  classes.indexOf s

/-- LabelEncoder.inverse_transform of one code: lookup in classes_. -/
def leInverse (classes : List String) (n : ℕ) : Option String :=
  classes[n]?

/-! ### app.py : the predict button handler -/

/-- Outcome of one click of the predict button for a selected segment:
either the error message of the membership check, or the predicted speed
together with the traffic-level message.  The fitted model is an opaque
function from (encoded segment, hour) to speed. -/
def predictHandler (classes : List String)
    (modelPredict : ℕ → ℕ → ℚ) (segId : String) (hour : ℕ) :
    Except String (ℚ × String) :=
  if segId ∉ classes then
    Except.error ("Segment ID '" ++ segId ++
      "' was not seen during model training. Cannot make a prediction.")
  else
    let segment_encoded_val := leTransform classes segId
    let predicted_speed := modelPredict segment_encoded_val hour
    Except.ok (predicted_speed, trafficMessage predicted_speed)

/-! ### Geometry and coordinate transposition -/

/-- The list comprehension [(lat, lon) for lon, lat in coords] used by both
app.py and visualize_traffic.py. -/
def transposeCoords : List (ℚ × ℚ) → List (ℚ × ℚ)
  | [] => []
  | (lon, lat) :: rest => (lat, lon) :: transposeCoords rest

/-- A shapely geometry as the rendering code dispatches on it. -/
inductive Geom where
  | lineString (coords : List (ℚ × ℚ))
  | multiLineString (lines : List (List (ℚ × ℚ)))
  | other (geom_type : String)

/-- The coords computation of app.py's map column: LineString coords are
transposed; MultiLineString parts are transposed and accumulated with
extend; any other geometry type reports an error and leaves coords empty. -/
def appSegmentCoords : Geom → List (ℚ × ℚ)
  | Geom.lineString cs => transposeCoords cs
  | Geom.multiLineString ls =>
      ls.foldl (fun all_coords line => all_coords ++ transposeCoords line) []
  | Geom.other _ => []

/-- Whether app.py's dispatch reports the unsupported-geometry error. -/
def appGeomError : Geom → Bool
  | Geom.lineString _ => false
  | Geom.multiLineString _ => false
  | Geom.other _ => true

/-! ### visualize_traffic.py : subset cap and plotting loop -/

/-- One row of merged_gdf_to_plot.  geometry is none for a missing
geometry object and some [] for an empty one; speed_kph is none for NaN. -/
structure VizRow where
  geometry : Option (List (ℚ × ℚ))
  road_name : Option String
  segment_id : String
  speed_kph : Option ℚ

/-- One folium.PolyLine added to the map. -/
structure PlotLine where
  locations : List (ℚ × ℚ)
  color : String
deriving DecidableEq

def MAX_SEGMENTS_TO_PLOT : ℕ := 500

/-- The subset selection before plotting: more than
MAX_SEGMENTS_TO_PLOT rows keeps only the head. -/
def selectToPlot (merged : List VizRow) : List VizRow :=
  if merged.length > MAX_SEGMENTS_TO_PLOT then
    merged.take MAX_SEGMENTS_TO_PLOT
  else merged

/-- The plotting loop: a row whose geometry is None or empty is skipped
with continue; otherwise its transposed coords become a PolyLine colored by
viz_get_color.  The second component collects the warnings printed inside
the loop (the source prints none). -/
def plotLoop : List VizRow → List PlotLine × List String
  | [] => ([], [])
  | row :: rest =>
    if row.geometry = none ∨ row.geometry = some [] then
      plotLoop rest
    else
      let coords := transposeCoords (row.geometry.getD [])
      let line : PlotLine := ⟨coords, viz_get_color row.speed_kph⟩
      let r := plotLoop rest
      (line :: r.1, r.2)

/-! ### extract_segments.py -/

/-- One edge of the osmnx GeoDataFrame of edges: the frame's index is the
(u, v, key) triple identifying the edge in the multigraph. -/
structure Edge where
  u : ℕ
  v : ℕ
  key : ℕ
  name : Option String
  geometry : List (ℚ × ℚ)
  length : ℚ

/-- The (u, v, key) index of an edge row. -/
def Edge.index (e : Edge) : ℕ × ℕ × ℕ := (e.u, e.v, e.key)

/-- One output record of extract_segments.py. -/
structure ExtractedSegment where
  segment_id : ℕ × ℕ × ℕ
  name : Option String
  geometry : List (ℚ × ℚ)
  length : ℚ
deriving DecidableEq

/-- The extraction: one record per edge; segments_df["segment_id"] is set
to the frame's index, so each record's identifier is its edge's
(u, v, key) triple. -/
def extractSegments (edges : List Edge) : List ExtractedSegment :=
  edges.map (fun e =>
    { segment_id := e.index
      name := e.name
      geometry := e.geometry
      length := e.length })

/-! ### Helper lemmas -/

lemma transposeCoords_eq_map (ps : List (ℚ × ℚ)) :
    transposeCoords ps = ps.map Prod.swap := by
  induction ps with
  | nil => rfl
  | cons p rest ih =>
    cases p
    simp [transposeCoords, ih, Prod.swap]

lemma foldl_extend_transpose (pss : List (List (ℚ × ℚ))) (acc : List (ℚ × ℚ)) :
    pss.foldl (fun all_coords line => all_coords ++ transposeCoords line) acc =
      acc ++ pss.flatten.map Prod.swap := by
  induction pss generalizing acc with
  | nil => simp
  | cons l rest ih =>
    rw [List.foldl_cons, ih, List.flatten_cons, List.map_append,
      transposeCoords_eq_map, List.append_assoc]

lemma plotLoop_length_le (rows : List VizRow) :
    (plotLoop rows).1.length ≤ rows.length := by
  induction rows with
  | nil => simp [plotLoop]
  | cons r rest ih =>
    by_cases hg : r.geometry = none ∨ r.geometry = some []
    · simp only [plotLoop, if_pos hg]
      exact ih.trans (Nat.le_succ _)
    · simp only [plotLoop, if_neg hg, List.length_cons]
      omega

lemma round_half_even_ge (n : ℤ) (q : ℚ) (h : (n : ℚ) ≤ q) :
    n ≤ round_half_even q := by
  have hf : n ≤ ⌊q⌋ := Int.le_floor.mpr h
  unfold round_half_even
  split_ifs <;> omega

lemma recordSpeed_ge_five (draw : ℚ) : 5 ≤ recordSpeed draw := by
  unfold recordSpeed pyround1
  have h50 : ((50 : ℤ) : ℚ) ≤ max 5 draw * 10 := by
    have hmax := le_max_left (5 : ℚ) draw
    push_cast
    linarith
  have hr : (50 : ℤ) ≤ round_half_even (max 5 draw * 10) :=
    round_half_even_ge 50 _ h50
  have hq : (50 : ℚ) ≤ (round_half_even (max 5 draw * 10) : ℚ) := by
    exact_mod_cast hr
  linarith

lemma trafficData_length (segments : List SimRow) (noise : String → ℕ → ℚ) :
    (trafficData segments noise).length = segments.length * 24 := by
  induction segments with
  | nil => simp [trafficData]
  | cons r rest ih =>
    simp only [trafficData, List.flatMap_cons, List.length_append, List.length_map,
      List.length_range, List.length_cons] at *
    omega

lemma sampleKeys_cons (r : SimRow) (rest : List SimRow) (noise : String → ℕ → ℚ) :
    sampleKeys (r :: rest) noise =
      ((List.range 24).map fun hh => (r.segment_id, hh)) ++ sampleKeys rest noise := by
  simp [sampleKeys, trafficData, List.flatMap_cons, List.map_append, List.map_map]

lemma countP_range_eq (h n : ℕ) :
    (List.range n).countP (fun hh => decide (hh = h)) = if h < n then 1 else 0 := by
  induction n with
  | zero => simp
  | succ m ih =>
    rw [List.range_succ, List.countP_append, ih, List.countP_singleton]
    simp only [decide_eq_true_eq]
    by_cases hh : h < m
    · have h1 : h < m + 1 := by omega
      have h2 : m ≠ h := by omega
      simp [hh, h1, h2]
    · by_cases hm : m = h
      · subst hm
        simp [hh]
      · have h3 : ¬ h < m + 1 := by omega
        simp [hh, hm, h3]

lemma countKey_block (s sid : String) (h : ℕ) (l : List ℕ) :
    countKey (l.map fun hh => (s, hh)) sid h =
      if s = sid then l.countP (fun hh => decide (hh = h)) else 0 := by
  induction l with
  | nil => simp [countKey]
  | cons a t ih =>
    rw [countKey, List.map_cons, List.countP_cons]
    rw [countKey] at ih
    rw [ih, List.countP_cons]
    simp only [decide_eq_true_eq, Prod.mk.injEq]
    by_cases hs : s = sid <;> by_cases ha : a = h <;> simp [hs, ha]

lemma countKey_sampleKeys (segments : List SimRow) (noise : String → ℕ → ℚ)
    (sid : String) (h : ℕ) :
    countKey (sampleKeys segments noise) sid h =
      if h < 24 then
        (segments.map SimRow.segment_id).countP (fun x => decide (x = sid))
      else 0 := by
  induction segments with
  | nil => simp [countKey, sampleKeys, trafficData]
  | cons r rest ih =>
    rw [sampleKeys_cons]
    show countKey (_ ++ _) sid h = _
    rw [countKey, List.countP_append]
    have hblock := countKey_block r.segment_id sid h (List.range 24)
    rw [countKey] at hblock
    rw [countKey] at ih
    rw [hblock, countP_range_eq, ih, List.map_cons, List.countP_cons]
    simp only [decide_eq_true_eq]
    by_cases hs : r.segment_id = sid <;> by_cases hh : h < 24 <;>
      simp [hs, hh, Nat.add_comm]

lemma countP_eq_one_of_nodup_mem {l : List String} {a : String}
    (hnd : l.Nodup) (hmem : a ∈ l) :
    l.countP (fun x => decide (x = a)) = 1 := by
  induction l with
  | nil => simp at hmem
  | cons b t ih =>
    rw [List.nodup_cons] at hnd
    rw [List.countP_cons]
    rcases List.mem_cons.mp hmem with hba | hat
    · subst hba
      have hz : t.countP (fun x => decide (x = a)) = 0 :=
        List.countP_eq_zero.mpr (fun x hx => by
          simp only [decide_eq_true_eq]
          intro hxa
          exact hnd.1 (hxa ▸ hx))
      simp [hz]
    · rw [ih hnd.2 hat]
      have hne : ¬ b = a := fun hba => hnd.1 (hba ▸ hat)
      simp [hne]

/-! ### Claim theorems -/

/-- C1: a query whose segment_id is not among the trained encoder's classes
is rejected with an explicit error message, yields no (speed, label) result,
and its outcome never depends on the model or on the hour — the unknown
identifier is never encoded. -/
theorem unknown_segment_rejected (classes : List String)
    (m₁ m₂ : ℕ → ℕ → ℚ) (segId : String) (hour₁ hour₂ : ℕ)
    (h : segId ∉ classes) :
    predictHandler classes m₁ segId hour₁ =
      Except.error ("Segment ID '" ++ segId ++
        "' was not seen during model training. Cannot make a prediction.") ∧
    (∀ res : ℚ × String, predictHandler classes m₁ segId hour₁ ≠ Except.ok res) ∧
    predictHandler classes m₁ segId hour₁ = predictHandler classes m₂ segId hour₂ := by
  refine ⟨?_, ?_, ?_⟩
  · unfold predictHandler
    rw [if_pos h]
  · intro res hres
    unfold predictHandler at hres
    rw [if_pos h] at hres
    exact Except.noConfusion hres
  · unfold predictHandler
    rw [if_pos h, if_pos h]

theorem unknown_segment_rejected_witness :
    "Z9" ∉ (["(1, 2, 0)", "(3, 4, 0)"] : List String) ∧
    predictHandler ["(1, 2, 0)", "(3, 4, 0)"] (fun _ _ => 0) "Z9" 8 =
      Except.error ("Segment ID '" ++ "Z9" ++
        "' was not seen during model training. Cannot make a prediction.") :=
  ⟨by decide,
   (unknown_segment_rejected ["(1, 2, 0)", "(3, 4, 0)"] (fun _ _ => 0)
      (fun _ _ => 1) "Z9" 8 8 (by decide)).1⟩

/-- C2: the traffic-level classification of the prediction surface and the
map coloring of both surfaces follow speed < 15 → heavy/red,
15 ≤ speed < 30 → moderate/orange, 30 ≤ speed → light/green; the two
get_color functions agree on every speed; the boundary cases 14.9, 15.0,
29.9, 30.0 land as claimed. -/
theorem classification_thresholds :
    (∀ s : ℚ,
      (trafficMessage s = "Heavy traffic expected." ↔ s < 15) ∧
      (trafficMessage s = "Moderate traffic expected." ↔ 15 ≤ s ∧ s < 30) ∧
      (trafficMessage s = "Light traffic / Free flow expected." ↔ 30 ≤ s) ∧
      (app_get_color s = "red" ↔ s < 15) ∧
      (app_get_color s = "orange" ↔ 15 ≤ s ∧ s < 30) ∧
      (app_get_color s = "green" ↔ 30 ≤ s) ∧
      viz_get_color (some s) = app_get_color s) ∧
    trafficMessage (149/10) = "Heavy traffic expected." ∧
    app_get_color (149/10) = "red" ∧
    trafficMessage 15 = "Moderate traffic expected." ∧
    trafficMessage (299/10) = "Moderate traffic expected." ∧
    trafficMessage 30 = "Light traffic / Free flow expected." := by
  refine ⟨fun s => ?_, by norm_num [trafficMessage], by norm_num [app_get_color],
    by norm_num [trafficMessage], by norm_num [trafficMessage], by norm_num [trafficMessage]⟩
  have hv : viz_get_color (some s) = app_get_color s := rfl
  by_cases h1 : s < 15
  · have hm : trafficMessage s = "Heavy traffic expected." := by
      simp [trafficMessage, h1]
    have hc : app_get_color s = "red" := by
      simp [app_get_color, h1]
    refine ⟨iff_of_true hm h1,
      iff_of_false (by rw [hm]; decide) (fun hx => absurd h1 (not_lt.mpr hx.1)),
      iff_of_false (by rw [hm]; decide)
        (fun hx => absurd h1 (not_lt.mpr (le_trans (by norm_num) hx))),
      iff_of_true hc h1,
      iff_of_false (by rw [hc]; decide) (fun hx => absurd h1 (not_lt.mpr hx.1)),
      iff_of_false (by rw [hc]; decide)
        (fun hx => absurd h1 (not_lt.mpr (le_trans (by norm_num) hx))),
      hv⟩
  · by_cases h2 : s < 30
    · have hm : trafficMessage s = "Moderate traffic expected." := by
        simp [trafficMessage, h1, h2]
      have hc : app_get_color s = "orange" := by
        simp [app_get_color, h1, h2]
      refine ⟨iff_of_false (by rw [hm]; decide) h1,
        iff_of_true hm ⟨not_lt.mp h1, h2⟩,
        iff_of_false (by rw [hm]; decide) (fun hx => absurd h2 (not_lt.mpr hx)),
        iff_of_false (by rw [hc]; decide) h1,
        iff_of_true hc ⟨not_lt.mp h1, h2⟩,
        iff_of_false (by rw [hc]; decide) (fun hx => absurd h2 (not_lt.mpr hx)),
        hv⟩
    · have hm : trafficMessage s = "Light traffic / Free flow expected." := by
        simp [trafficMessage, h1, h2]
      have hc : app_get_color s = "green" := by
        simp [app_get_color, h1, h2]
      refine ⟨iff_of_false (by rw [hm]; decide) h1,
        iff_of_false (by rw [hm]; decide) (fun hx => absurd hx.2 h2),
        iff_of_true hm (not_lt.mp h2),
        iff_of_false (by rw [hc]; decide) h1,
        iff_of_false (by rw [hc]; decide) (fun hx => absurd hx.2 h2),
        iff_of_true hc (not_lt.mp h2),
        hv⟩

/-- C4: simulate_speed selects the normal-distribution parameters by the
fixed time-of-day bucketing: hours 7-9 and 16-18 get (18, 5), hours 10-15
get (30, 7), hours 19-22 get (40, 5), and every other hour gets (50, 5). -/
theorem speedParams_table :
    ∀ h : Fin 24, speedParams h.val =
      if h.val = 7 ∨ h.val = 8 ∨ h.val = 9 ∨ h.val = 16 ∨ h.val = 17 ∨ h.val = 18 then
        ((18 : ℚ), (5 : ℚ))
      else if h.val = 10 ∨ h.val = 11 ∨ h.val = 12 ∨ h.val = 13 ∨ h.val = 14 ∨ h.val = 15 then
        (30, 7)
      else if h.val = 19 ∨ h.val = 20 ∨ h.val = 21 ∨ h.val = 22 then (40, 5)
      else (50, 5) := by
  decide

/-- C9: both rendering paths transpose every (longitude, latitude) point to
(latitude, longitude): the comprehension used by both files maps each pair
to its swap, app.py's LineString and MultiLineString branches produce the
swapped points, and the batch plotting loop emits each row's swapped
coordinates. -/
theorem coords_transposition :
    (∀ ps : List (ℚ × ℚ), transposeCoords ps = ps.map Prod.swap) ∧
    (∀ ps : List (ℚ × ℚ), appSegmentCoords (Geom.lineString ps) = ps.map Prod.swap) ∧
    (∀ pss : List (List (ℚ × ℚ)),
      appSegmentCoords (Geom.multiLineString pss) = pss.flatten.map Prod.swap) ∧
    (∀ (p : ℚ × ℚ) (ps : List (ℚ × ℚ)) (nm : Option String) (sid : String)
       (sp : Option ℚ) (rest : List VizRow),
      plotLoop (VizRow.mk (some (p :: ps)) nm sid sp :: rest) =
        (PlotLine.mk ((p :: ps).map Prod.swap) (viz_get_color sp) :: (plotLoop rest).1,
         (plotLoop rest).2)) := by
  refine ⟨transposeCoords_eq_map, fun ps => transposeCoords_eq_map ps, ?_, ?_⟩
  · intro pss
    simpa using foldl_extend_transpose pss []
  · intro p ps nm sid sp rest
    simp [plotLoop, transposeCoords_eq_map]

/-- C10: when the merged table has more than MAX_SEGMENTS_TO_PLOT = 500
rows, only its first 500 rows are handed to the plotting loop, and at most
500 polylines are drawn. -/
theorem plot_cap (merged : List VizRow)
    (h : merged.length > MAX_SEGMENTS_TO_PLOT) :
    selectToPlot merged = merged.take 500 ∧
    plotLoop (selectToPlot merged) = plotLoop (merged.take 500) ∧
    (plotLoop (selectToPlot merged)).1.length ≤ 500 := by
  have hsel : selectToPlot merged = merged.take 500 := by
    unfold selectToPlot
    rw [if_pos h]
    rfl
  refine ⟨hsel, by rw [hsel], ?_⟩
  rw [hsel]
  exact (plotLoop_length_le _).trans (List.length_take_le _ _)

theorem plot_cap_witness :
    (List.replicate 501 (VizRow.mk none none "s" none)).length >
      MAX_SEGMENTS_TO_PLOT ∧
    selectToPlot (List.replicate 501 (VizRow.mk none none "s" none)) =
      (List.replicate 501 (VizRow.mk none none "s" none)).take 500 :=
  ⟨by norm_num [MAX_SEGMENTS_TO_PLOT],
   (plot_cap _ (by norm_num [MAX_SEGMENTS_TO_PLOT])).1⟩

/-- C3: every record written by the simulation loop carries a speed of at
least 5 km/h — the clamp max(5, draw) followed by rounding to one decimal
never drops below the floor, for any segment table and any noise draws. -/
theorem simulated_speed_floor (segments : List SimRow) (noise : String → ℕ → ℚ) :
    ∀ t ∈ trafficData segments noise, 5 ≤ t.speed_kph := by
  intro t ht
  unfold trafficData at ht
  rw [List.mem_flatMap] at ht
  obtain ⟨row, _, hm⟩ := ht
  rw [List.mem_map] at hm
  obtain ⟨h, _, rfl⟩ := hm
  exact recordSpeed_ge_five _

theorem simulated_speed_floor_witness :
    5 ≤ (TrafficSample.mk "(1, 2, 0)" "Test Ave" 8 (recordSpeed 3)).speed_kph :=
  simulated_speed_floor [SimRow.mk "(1, 2, 0)" (some "Test Ave")] (fun _ _ => 3) _
    (by
      unfold trafficData
      rw [List.mem_flatMap]
      exact ⟨SimRow.mk "(1, 2, 0)" (some "Test Ave"), by simp,
        List.mem_map.mpr ⟨8, by simp, rfl⟩⟩)

/-- C5: one simulation run over a table of distinct segment identifiers
emits exactly segments × 24 records, and every (segment identifier, hour)
pair with hour < 24 occurs exactly once among the output keys. -/
theorem one_sample_per_pair (segments : List SimRow) (noise : String → ℕ → ℚ)
    (hnd : (segments.map SimRow.segment_id).Nodup) :
    (trafficData segments noise).length = segments.length * 24 ∧
    ∀ row ∈ segments, ∀ h < 24,
      countKey (sampleKeys segments noise) row.segment_id h = 1 := by
  refine ⟨trafficData_length segments noise, ?_⟩
  intro row hrow h hh
  rw [countKey_sampleKeys, if_pos hh,
    countP_eq_one_of_nodup_mem hnd (List.mem_map.mpr ⟨row, hrow, rfl⟩)]

theorem one_sample_per_pair_witness :
    (([SimRow.mk "a" none, SimRow.mk "b" none].map SimRow.segment_id).Nodup) ∧
    (trafficData [SimRow.mk "a" none, SimRow.mk "b" none] (fun _ _ => 0)).length =
      2 * 24 ∧
    countKey (sampleKeys [SimRow.mk "a" none, SimRow.mk "b" none] (fun _ _ => 0))
      "b" 3 = 1 :=
  ⟨by decide,
   (one_sample_per_pair [SimRow.mk "a" none, SimRow.mk "b" none] (fun _ _ => 0)
     (by decide)).1,
   (one_sample_per_pair [SimRow.mk "a" none, SimRow.mk "b" none] (fun _ _ => 0)
     (by decide)).2 (SimRow.mk "b" none) (by decide) 3 (by decide)⟩

/-- C6: encoding a training identifier with the fitted label encoder and
decoding the resulting integer returns the original identifier, for every
identifier present in the training data. -/
theorem encoder_round_trip (ids : List String) (s : String) (h : s ∈ ids) :
    leInverse (fitClasses ids) (leTransform (fitClasses ids) s) = some s := by
  have hmem : s ∈ fitClasses ids := by
    unfold fitClasses
    rw [(List.perm_insertionSort _ _).mem_iff]
    exact List.mem_dedup.mpr h
  unfold leInverse leTransform
  exact List.getElem?_indexOf hmem

theorem encoder_round_trip_witness :
    "(1, 2, 0)" ∈ (["(2, 3, 0)", "(1, 2, 0)", "(2, 3, 0)"] : List String) ∧
    leInverse (fitClasses ["(2, 3, 0)", "(1, 2, 0)", "(2, 3, 0)"])
      (leTransform (fitClasses ["(2, 3, 0)", "(1, 2, 0)", "(2, 3, 0)"]) "(1, 2, 0)") =
      some "(1, 2, 0)" :=
  ⟨by decide, encoder_round_trip _ _ (by decide)⟩

/-- C7: the extraction assigns pairwise distinct identifiers whenever the
graph's edge indices are distinct (a multigraph invariant), and the emitted
identifiers are exactly the edge indices in order — a pure function of the
graph, so re-extraction from the same graph yields the same identifiers. -/
theorem extraction_ids_distinct_stable (edges : List Edge)
    (hnd : (edges.map Edge.index).Nodup) :
    ((extractSegments edges).map ExtractedSegment.segment_id).Nodup ∧
    (extractSegments edges).map ExtractedSegment.segment_id =
      edges.map Edge.index := by
  have heq : (extractSegments edges).map ExtractedSegment.segment_id =
      edges.map Edge.index := by
    unfold extractSegments
    rw [List.map_map]
    rfl
  exact ⟨heq ▸ hnd, heq⟩

theorem extraction_ids_witness :
    (([Edge.mk 1 2 0 none [] 10, Edge.mk 2 3 0 none [] 12].map Edge.index).Nodup) ∧
    ((extractSegments [Edge.mk 1 2 0 none [] 10, Edge.mk 2 3 0 none [] 12]).map
      ExtractedSegment.segment_id).Nodup :=
  ⟨by decide,
   (extraction_ids_distinct_stable
     [Edge.mk 1 2 0 none [] 10, Edge.mk 2 3 0 none [] 12] (by decide)).1⟩

/-- C8 counterexample: a record with absent geometry is skipped by the
batch plotting loop, but the loop emits no user-visible warning for it —
the warnings list stays empty, contradicting the claim that every such
record is reported. -/
theorem silent_skip_counterexample :
    (plotLoop [VizRow.mk none (some "Road A") "(1, 2, 0)" (some 20)]).2 = [] ∧
    (plotLoop [VizRow.mk none (some "Road A") "(1, 2, 0)" (some 20)]).1 = [] := by
  constructor <;> rfl

/-- C8 amended: the batch plotting loop skips a record with absent or empty
geometry and continues with the remaining records unchanged — it emits no
warning; the interactive view's dispatch reports the unsupported-geometry
error and yields no coordinates. -/
theorem skip_and_continue (row : VizRow) (rest : List VizRow)
    (h : row.geometry = none ∨ row.geometry = some []) :
    plotLoop (row :: rest) = plotLoop rest ∧
    (∀ t : String, appGeomError (Geom.other t) = true ∧
      appSegmentCoords (Geom.other t) = []) := by
  refine ⟨?_, fun t => ⟨rfl, rfl⟩⟩
  simp only [plotLoop, if_pos h]

theorem skip_and_continue_witness :
    ((VizRow.mk none none "x" none).geometry = none ∨
      (VizRow.mk none none "x" none).geometry = some []) ∧
    plotLoop [VizRow.mk none none "x" none,
        VizRow.mk (some [((21 : ℚ), (52 : ℚ))]) none "y" (some 40)] =
      plotLoop [VizRow.mk (some [((21 : ℚ), (52 : ℚ))]) none "y" (some 40)] :=
  ⟨Or.inl rfl, (skip_and_continue _ _ (Or.inl rfl)).1⟩

end Traffic
